import Mathlib

/-!
Verification of the text-classification baseline repository.

Shallow embedding of the two source files:

* `src/text_clf/pr_roc_curve.py` — the model-and-data resolver
  `_get_model_and_data` and the curve helpers;
* `src/baseline.py` — the linear training script (label encoding, TF-IDF
  vectorisation, classifier fitting, artifact serialization).

Filesystem reads, `glob` search, config loading, data loading and joblib
deserialization are modelled through an explicit environment (`Env`): each
field records what the corresponding external call would return.  The
resolver is embedded as a function producing both its result
(`Except ResolverError Resolved`) and the ordered list of external effects
it performed, so that claims about "no side effects past step k" and about
error ordering are statable.
-/

namespace TextClf

abbrev Path := String

/-- Model of the Python method startswith, over the character sequence. -/
def strStartsWith (s pre : String) : Bool :=
  pre.toList.isPrefixOf s.toList

/-- Model of the Python method endswith, over the character sequence. -/
def strEndsWith (s post : String) : Bool :=
  post.toList.isSuffixOf s.toList

/-- Model of `os.path.join(a, b)` for POSIX paths, two arguments: if `b` is absolute
it wins; otherwise it is appended to `a`, inserting a separator unless `a`
is empty or already ends with one. -/
def osPathJoin (a b : Path) : Path :=
  if strStartsWith b "/" then b
  else if a = "" then b
  else if strEndsWith a "/" then a ++ b
  else a ++ "/" ++ b

/-- An opaque serialized/deserialized classifier object (`joblib` payload).
Identity is all the resolver manipulates; probability prediction is applied
to it externally. -/
structure Model where
  modelId : Nat
deriving DecidableEq, Repr

/-- An opaque parsed configuration document (result of `get_config`). -/
structure Config where
  configId : Nat
deriving DecidableEq, Repr

/-- The external side effects `_get_model_and_data` can perform, in program
order: reading `target_names.json`, the `glob.glob("*.yaml")` search, loading
the config at a path, calling `load_data`, and `joblib.load` at a path. -/
inductive Effect where
  | readTargetNames : Effect
  | configSearch : Effect
  | loadConfig : Path → Effect
  | loadData : Effect
  | loadModel : Path → Effect
deriving DecidableEq, Repr

/-- The distinguishable failures of `_get_model_and_data`:
the three structural errors raised explicitly by the source
(lines 44–56) and the propagated failures of `get_config`, `load_data`
and `joblib.load`. -/
inductive ResolverError where
  | notBinary : Nat → ResolverError
  | noConfig : ResolverError
  | ambiguousConfig : ResolverError
  | configLoadError : ResolverError
  | dataLoadError : ResolverError
  | deserializationError : ResolverError
deriving DecidableEq, Repr

/-- The resolver's successful result: the triple
`(model, X_test, y_test)` returned at line 70 of the source. -/
structure Resolved where
  model : Model
  xTest : List String
  yTest : List Nat
deriving DecidableEq, Repr

/-- The ambient state the resolver's external calls observe.

* `targetNames` — the parsed contents of `<folder>/target_names.json`;
* `cwdYamlList` — what `glob.glob("*.yaml")` returns, i.e. the `*.yaml`
  file names in the process's current working directory;
* `folderFiles` — the file names actually present in the model artifact
  folder passed to the resolver (the resolver itself never lists them;
  the field lets theorems speak about the folder's real contents);
* `getConfig` — result of `get_config` at a path (`none` = raised);
* `loadData` — result of `load_data config`, the 4-tuple
  `(X_train, X_test, y_train, y_test)` (`none` = raised);
* `fs` — the joblib store: `joblib.load p` succeeds iff `p` is bound. -/
structure Env where
  targetNames : List String
  cwdYamlList : List String
  folderFiles : List String
  getConfig : Path → Option Config
  loadData : Config → Option (List String × List String × List Nat × List Nat)
  fs : List (Path × Model)

/-- Embedding of `_get_model_and_data` (src/text_clf/pr_roc_curve.py,
lines 20–70), paired with the ordered list of external effects performed.
The steps mirror the source exactly: compute `path_to_model` (a pure string
join, line 38), read and validate `target_names` (lines 41–47), run the
`glob.glob("*.yaml")` search in the current working directory and validate
its cardinality (lines 50–56), join the model folder with the single match
(lines 57–59), load the config (line 62), load the data discarding the
training split (line 65), deserialize the model (line 68), and return the
triple (line 70). -/
def getModelAndData (env : Env) (pathToModelFolder : Path) :
    Except ResolverError Resolved × List Effect :=
  let pathToModel := osPathJoin pathToModelFolder "model.joblib"
  let targetNames := env.targetNames
  if targetNames.length ≠ 2 then
    (Except.error (ResolverError.notBinary targetNames.length),
     [Effect.readTargetNames])
  else
    let yamlList := env.cwdYamlList
    if yamlList.length = 0 then
      (Except.error ResolverError.noConfig,
       [Effect.readTargetNames, Effect.configSearch])
    else if yamlList.length > 1 then
      (Except.error ResolverError.ambiguousConfig,
       [Effect.readTargetNames, Effect.configSearch])
    else
      let pathToConfig := osPathJoin pathToModelFolder (yamlList.headD "")
      match env.getConfig pathToConfig with
      | none =>
          (Except.error ResolverError.configLoadError,
           [Effect.readTargetNames, Effect.configSearch,
            Effect.loadConfig pathToConfig])
      | some config =>
          match env.loadData config with
          | none =>
              (Except.error ResolverError.dataLoadError,
               [Effect.readTargetNames, Effect.configSearch,
                Effect.loadConfig pathToConfig, Effect.loadData])
          | some (_, xTest, _, yTest) =>
              match env.fs.lookup pathToModel with
              | none =>
                  (Except.error ResolverError.deserializationError,
                   [Effect.readTargetNames, Effect.configSearch,
                    Effect.loadConfig pathToConfig, Effect.loadData,
                    Effect.loadModel pathToModel])
              | some model =>
                  (Except.ok ⟨model, xTest, yTest⟩,
                   [Effect.readTargetNames, Effect.configSearch,
                    Effect.loadConfig pathToConfig, Effect.loadData,
                    Effect.loadModel pathToModel])

/-- Number of `*.yaml` file names in a directory listing. -/
def yamlCount (files : List String) : Nat :=
  (files.filter (fun f => strEndsWith f ".yaml")).length

/-- When the working-directory search returns exactly one yaml name and the
class count passed validation, the resolver is past both search errors and
the `get_config` call targets the model folder joined with that name,
whatever the downstream loads do. -/
theorem loadConfig_effect_of_single_yaml (env : Env) (folder : Path)
    (y : String) (h2 : env.targetNames.length = 2)
    (hy : env.cwdYamlList = [y]) :
    (getModelAndData env folder).1 ≠ Except.error ResolverError.noConfig ∧
    (getModelAndData env folder).1
      ≠ Except.error ResolverError.ambiguousConfig ∧
    Effect.loadConfig (osPathJoin folder y) ∈ (getModelAndData env folder).2 := by
  rcases hc : env.getConfig (osPathJoin folder y) with _ | config
  · simp [getModelAndData, h2, hy, hc]
  · rcases hd : env.loadData config with _ | data
    · simp [getModelAndData, h2, hy, hc, hd]
    · obtain ⟨xTr, xTe, yTr, yTe⟩ := data
      rcases hm : env.fs.lookup (osPathJoin folder "model.joblib") with _ | m
      · simp [getModelAndData, h2, hy, hc, hd, hm]
      · simp [getModelAndData, h2, hy, hc, hd, hm]

end TextClf

open TextClf

/-- C1: if the parsed class-label list has length ≠ 2, the resolver fails
with the binary-classification error carrying the actual count, and the only
external effect performed is the metadata read: no configuration search, no
config load, no data load, no model deserialization. -/
theorem c1_notBinary_stops_early (env : Env) (folder : Path)
    (h : env.targetNames.length ≠ 2) :
    (getModelAndData env folder).1
      = Except.error (ResolverError.notBinary env.targetNames.length) ∧
    (getModelAndData env folder).2 = [Effect.readTargetNames] := by
  unfold getModelAndData
  rw [if_pos h]
  exact ⟨rfl, rfl⟩

/-- Witness for C1 at a concrete environment with three class labels. -/
theorem c1_notBinary_stops_early_witness :
    (getModelAndData
        { targetNames := ["a", "b", "c"], cwdYamlList := ["config.yaml"],
          folderFiles := [], getConfig := fun _ => none,
          loadData := fun _ => none, fs := [] } "models").1
      = Except.error (ResolverError.notBinary 3) ∧
    (getModelAndData
        { targetNames := ["a", "b", "c"], cwdYamlList := ["config.yaml"],
          folderFiles := [], getConfig := fun _ => none,
          loadData := fun _ => none, fs := [] } "models").2
      = [Effect.readTargetNames] :=
  c1_notBinary_stops_early _ "models" (by decide)

/-- C2: with the class count valid, zero yaml matches make the resolver fail
with the missing-configuration error, two or more matches make it fail with
the ambiguous-configuration error (for every environment, hence
independently of which candidates are present — no heuristic choice), and
exactly one match lets resolution proceed past the search to the config
load. -/
theorem c2_config_search_cardinality (env : Env) (folder : Path)
    (h2 : env.targetNames.length = 2) :
    (env.cwdYamlList.length = 0 →
      (getModelAndData env folder).1 = Except.error ResolverError.noConfig) ∧
    (1 < env.cwdYamlList.length →
      (getModelAndData env folder).1
        = Except.error ResolverError.ambiguousConfig) ∧
    (∀ y, env.cwdYamlList = [y] →
      (getModelAndData env folder).1 ≠ Except.error ResolverError.noConfig ∧
      (getModelAndData env folder).1
        ≠ Except.error ResolverError.ambiguousConfig ∧
      Effect.loadConfig (osPathJoin folder y)
        ∈ (getModelAndData env folder).2) := by
  refine ⟨fun h0 => ?_, fun h1 => ?_,
    fun y hy => loadConfig_effect_of_single_yaml env folder y h2 hy⟩
  · unfold getModelAndData
    rw [if_neg (by omega), if_pos h0]
  · unfold getModelAndData
    rw [if_neg (by omega), if_neg (by omega), if_pos h1]

/-- Environment for the C2 witness: two class labels, empty
working-directory yaml listing. -/
def c2Env : Env :=
  { targetNames := ["neg", "pos"], cwdYamlList := [],
    folderFiles := [], getConfig := fun _ => none,
    loadData := fun _ => none, fs := [] }

/-- Witness for C2 at the environment `c2Env`. -/
theorem c2_config_search_cardinality_witness :
    (getModelAndData c2Env "models").1
      = Except.error ResolverError.noConfig :=
  (c2_config_search_cardinality c2Env "models" rfl).1 rfl

/-- Environment for C3: the model artifact directory `model_dir` contains
exactly one `*.yaml` file, but the process working directory contains
none. -/
def c3Env : Env :=
  { targetNames := ["neg", "pos"], cwdYamlList := [],
    folderFiles := ["model.joblib", "target_names.json", "config.yaml"],
    getConfig := fun _ => some ⟨0⟩,
    loadData := fun _ => some ([], ["doc"], [], [1]),
    fs := [("model_dir/model.joblib", ⟨0⟩)] }

/-- C3 (code bug): the exactly-one-yaml constraint is NOT evaluated against
the model artifact directory.  Here the folder passed to the resolver holds
exactly one yaml file, yet the resolver raises the missing-configuration
error, because `glob.glob("*.yaml")` at line 50 searches the process
current working directory instead of `path_to_model_folder`. -/
theorem c3_search_counts_cwd_not_folder :
    yamlCount c3Env.folderFiles = 1 ∧
    (getModelAndData c3Env "model_dir").1
      = Except.error ResolverError.noConfig := by
  constructor
  · decide
  · rfl

/-- Environment for C4: one yaml match `split.yaml` in the working
directory, while the model folder `models/run1` holds only the two
fixed-name items and no yaml at all. -/
def c4Env : Env :=
  { targetNames := ["neg", "pos"], cwdYamlList := ["split.yaml"],
    folderFiles := ["model.joblib", "target_names.json"],
    getConfig := fun _ => none,
    loadData := fun _ => none,
    fs := [] }

/-- C4: whenever the search succeeds with exactly one yaml match, the config
actually loaded is the model folder joined with the matched (working
directory) filename; concretely, with folder `models/run1` and cwd match
`split.yaml`, the search succeeds and `get_config` is called on
`models/run1/split.yaml` although `split.yaml` is not among the folder's
files. -/
theorem c4_config_loaded_from_joined_path :
    (∀ env folder y, env.targetNames.length = 2 → env.cwdYamlList = [y] →
      Effect.loadConfig (osPathJoin folder y)
        ∈ (getModelAndData env folder).2) ∧
    ((getModelAndData c4Env "models/run1").2
      = [Effect.readTargetNames, Effect.configSearch,
         Effect.loadConfig "models/run1/split.yaml"] ∧
     "split.yaml" ∉ c4Env.folderFiles) := by
  refine ⟨fun env folder y h2 hy =>
    (loadConfig_effect_of_single_yaml env folder y h2 hy).2.2, ?_, ?_⟩
  · rfl
  · decide

/-- Witness for C4 at the concrete environment `c4Env`. -/
theorem c4_config_loaded_from_joined_path_witness :
    Effect.loadConfig (osPathJoin "models/run1" "split.yaml")
      ∈ (getModelAndData c4Env "models/run1").2 :=
  c4_config_loaded_from_joined_path.1 c4Env "models/run1" "split.yaml" rfl rfl

/-- C5: the classifier artifact path is the model folder joined with the
fixed name `model.joblib`, computed without an existence check: when the
joblib store has no binding for it, the resolver still reaches step 6 and
fails with the deserialization error only after class-count validation, the
configuration search/load and the data load have all succeeded (the effect
list records all of them, ending with the `joblib.load` attempt); when the
binding exists, the resolver returns the triple `(model, X_test, y_test)`,
discarding the training split `(xTr, yTr)` returned by `load_data`. -/
theorem c5_fixed_model_path_late_deserialization (env : Env) (folder : Path)
    (y : String) (config : Config) (xTr xTe : List String)
    (yTr yTe : List Nat)
    (h2 : env.targetNames.length = 2)
    (hy : env.cwdYamlList = [y])
    (hc : env.getConfig (osPathJoin folder y) = some config)
    (hd : env.loadData config = some (xTr, xTe, yTr, yTe)) :
    (env.fs.lookup (osPathJoin folder "model.joblib") = none →
      getModelAndData env folder
        = (Except.error ResolverError.deserializationError,
           [Effect.readTargetNames, Effect.configSearch,
            Effect.loadConfig (osPathJoin folder y), Effect.loadData,
            Effect.loadModel (osPathJoin folder "model.joblib")])) ∧
    (∀ m, env.fs.lookup (osPathJoin folder "model.joblib") = some m →
      getModelAndData env folder
        = (Except.ok ⟨m, xTe, yTe⟩,
           [Effect.readTargetNames, Effect.configSearch,
            Effect.loadConfig (osPathJoin folder y), Effect.loadData,
            Effect.loadModel (osPathJoin folder "model.joblib")])) := by
  constructor
  · intro hm
    simp [getModelAndData, h2, hy, hc, hd, hm]
  · intro m hm
    simp [getModelAndData, h2, hy, hc, hd, hm]

/-- Environment for the C5 witness: everything resolves except the joblib
store, which holds no binding at all. -/
def c5Env : Env :=
  { targetNames := ["neg", "pos"], cwdYamlList := ["cfg.yaml"],
    folderFiles := [],
    getConfig := fun _ => some ⟨0⟩,
    loadData := fun _ => some (["tr"], ["te"], [0], [1]),
    fs := [] }

/-- Witness for C5 at the environment `c5Env`. -/
theorem c5_fixed_model_path_late_deserialization_witness :
    getModelAndData c5Env "models"
      = (Except.error ResolverError.deserializationError,
         [Effect.readTargetNames, Effect.configSearch,
          Effect.loadConfig "models/cfg.yaml", Effect.loadData,
          Effect.loadModel "models/model.joblib"]) :=
  (c5_fixed_model_path_late_deserialization c5Env "models" "cfg.yaml"
    ⟨0⟩ ["tr"] ["te"] [0] [1] rfl rfl rfl rfl).1 rfl

/-- The model-name constant of src/baseline.py, line 46. -/
def baselineFilename : String := "log_reg_tf_idf"

/-- The artifacts-directory constant of src/baseline.py, line 47. -/
def baselineDirectory : Path := "saved_models"

/-- Embedding of the f-string at line 52 of src/baseline.py:
`path = f'{directory}/{filename}.joblib'`. -/
def baselineSavePath : Path :=
  baselineDirectory ++ "/" ++ baselineFilename ++ ".joblib"

/-- Embedding of `dump(clf, path)` (joblib, called at line 53 of src/baseline.py):
bind the serialized classifier to `path` in the joblib store. -/
def dump (fs : List (Path × Model)) (clf : Model) (path : Path) :
    List (Path × Model) :=
  (path, clf) :: fs

/-- Environment for the C6 counterexample: the joblib store holds exactly
what the training flow wrote — the trained classifier at
`saved_models/log_reg_tf_idf.joblib` — and everything else resolves. -/
def c6Env : Env :=
  { targetNames := ["neg", "pos"], cwdYamlList := ["config.yaml"],
    folderFiles := ["log_reg_tf_idf.joblib"],
    getConfig := fun _ => some ⟨0⟩,
    loadData := fun _ => some ([], ["doc"], [], [1]),
    fs := dump [] ⟨7⟩ baselineSavePath }

/-- C6 counterexample: the training flow serializes the classifier at
`saved_models/log_reg_tf_idf.joblib` (line 52 of src/baseline.py), which is
not the path the resolver deserializes from that same folder
(`saved_models/model.joblib`); consequently, on a store holding exactly the
trained artifact, the resolver fails with the deserialization error and
never yields the serialized classifier's predictions. -/
theorem c6_roundtrip_counterexample :
    baselineSavePath ≠ osPathJoin baselineDirectory "model.joblib" ∧
    (getModelAndData c6Env baselineDirectory).1
      = Except.error ResolverError.deserializationError := by
  constructor
  · decide
  · rfl

/-- C6 amended: when the serialized classifier is stored under the
resolver's fixed name `model.joblib` inside the model folder, the resolver
returns exactly the stored classifier object, so every probability
predictor produces identical outputs on the resolved model and on the
pre-serialization classifier over the resolved test inputs. -/
theorem c6_roundtrip_with_fixed_name (env : Env) (folder : Path)
    (y : String) (config : Config) (xTr xTe : List String)
    (yTr yTe : List Nat) (clf : Model) (fs0 : List (Path × Model))
    (h2 : env.targetNames.length = 2)
    (hy : env.cwdYamlList = [y])
    (hc : env.getConfig (osPathJoin folder y) = some config)
    (hd : env.loadData config = some (xTr, xTe, yTr, yTe))
    (hfs : env.fs = dump fs0 clf (osPathJoin folder "model.joblib")) :
    ∃ r : Resolved, (getModelAndData env folder).1 = Except.ok r ∧
      r.model = clf ∧ r.xTest = xTe ∧
      ∀ predictProba : Model → List String → List ℚ,
        predictProba r.model r.xTest = predictProba clf xTe := by
  have hm : env.fs.lookup (osPathJoin folder "model.joblib") = some clf := by
    rw [hfs]
    simp [dump, List.lookup]
  refine ⟨⟨clf, xTe, yTe⟩, ?_, rfl, rfl, fun _ => rfl⟩
  simp [getModelAndData, h2, hy, hc, hd, hm]

/-- Environment for the C6 amended-claim witness: the trained classifier is
stored under the resolver's fixed artifact name. -/
def c6OkEnv : Env :=
  { targetNames := ["neg", "pos"], cwdYamlList := ["config.yaml"],
    folderFiles := ["model.joblib"],
    getConfig := fun _ => some ⟨0⟩,
    loadData := fun _ => some ([], ["doc"], [], [1]),
    fs := dump [] ⟨7⟩ (osPathJoin "saved_models" "model.joblib") }

/-- Witness for the C6 amended claim at the environment `c6OkEnv`. -/
theorem c6_roundtrip_with_fixed_name_witness :
    ∃ r : Resolved,
      (getModelAndData c6OkEnv "saved_models").1 = Except.ok r ∧
      r.model = ⟨7⟩ ∧ r.xTest = ["doc"] ∧
      ∀ predictProba : Model → List String → List ℚ,
        predictProba r.model r.xTest = predictProba ⟨7⟩ ["doc"] :=
  c6_roundtrip_with_fixed_name c6OkEnv "saved_models" "config.yaml"
    ⟨0⟩ [] ["doc"] [] [1] ⟨7⟩ [] rfl rfl rfl rfl rfl

/-- Modelled from the spec: the binary curve computations (the external
library's `precision_recall_curve` and `roc_curve`, called at lines 88 and
110 of src/text_clf/pr_roc_curve.py, are not part of src/).  An evaluation
point pairs a test example's true binary label with its predicted
positive-class score; `tpAt data t` counts the true positives at decision
threshold `t` (score ≥ t means predicted positive). -/
def tpAt (data : List (Bool × ℚ)) (t : ℚ) : Nat :=
  (data.filter (fun p => p.1 && decide (t ≤ p.2))).length

/-- Modelled from the spec: false positives at decision threshold `t`. -/
def fpAt (data : List (Bool × ℚ)) (t : ℚ) : Nat :=
  (data.filter (fun p => !p.1 && decide (t ≤ p.2))).length

/-- Number of positive examples in the evaluation data. -/
def posCount (data : List (Bool × ℚ)) : Nat :=
  (data.filter (fun p => p.1)).length

/-- Number of negative examples in the evaluation data. -/
def negCount (data : List (Bool × ℚ)) : Nat :=
  (data.filter (fun p => !p.1)).length

/-- Modelled from the spec: recall at threshold `t`, that is true positives
over all positives (zero by convention when there are no positives). -/
def recallAt (data : List (Bool × ℚ)) (t : ℚ) : ℚ :=
  (tpAt data t : ℚ) / (posCount data : ℚ)

/-- Modelled from the spec: the ROC true-positive rate, identical to
recall. -/
def tprAt (data : List (Bool × ℚ)) (t : ℚ) : ℚ :=
  recallAt data t

/-- Modelled from the spec: the ROC false-positive rate at threshold
`t`. -/
def fprAt (data : List (Bool × ℚ)) (t : ℚ) : ℚ :=
  (fpAt data t : ℚ) / (negCount data : ℚ)

/-- Raising the threshold can only shrink the predicted-positive set, so the
true-positive count is antitone in the threshold. -/
theorem tpAt_antitone (data : List (Bool × ℚ)) (t₁ t₂ : ℚ) (h : t₁ ≤ t₂) :
    tpAt data t₂ ≤ tpAt data t₁ := by
  have himp : ∀ p : Bool × ℚ, (p.1 && decide (t₂ ≤ p.2)) = true →
      (p.1 && decide (t₁ ≤ p.2)) = true := by
    intro p hp
    simp only [Bool.and_eq_true, decide_eq_true_eq] at hp ⊢
    exact ⟨hp.1, le_trans h hp.2⟩
  exact (List.monotone_filter_right data himp).length_le

/-- Raising the threshold can only shrink the predicted-positive set, so the
false-positive count is antitone in the threshold. -/
theorem fpAt_antitone (data : List (Bool × ℚ)) (t₁ t₂ : ℚ) (h : t₁ ≤ t₂) :
    fpAt data t₂ ≤ fpAt data t₁ := by
  have himp : ∀ p : Bool × ℚ, (!p.1 && decide (t₂ ≤ p.2)) = true →
      (!p.1 && decide (t₁ ≤ p.2)) = true := by
    intro p hp
    simp only [Bool.and_eq_true, decide_eq_true_eq] at hp ⊢
    exact ⟨hp.1, le_trans h hp.2⟩
  exact (List.monotone_filter_right data himp).length_le

/-- C7: for any fixed evaluation data, recall is non-increasing as the
threshold increases, and both the ROC true-positive rate and false-positive
rate are non-decreasing as the threshold decreases (equivalently, antitone
in the threshold). -/
theorem c7_curve_monotonicity (data : List (Bool × ℚ)) (t₁ t₂ : ℚ)
    (h : t₁ ≤ t₂) :
    recallAt data t₂ ≤ recallAt data t₁ ∧
    tprAt data t₂ ≤ tprAt data t₁ ∧
    fprAt data t₂ ≤ fprAt data t₁ := by
  have hrec : recallAt data t₂ ≤ recallAt data t₁ :=
    div_le_div_of_nonneg_right
      (by exact_mod_cast tpAt_antitone data t₁ t₂ h) (by positivity)
  refine ⟨hrec, hrec, ?_⟩
  exact div_le_div_of_nonneg_right
    (by exact_mod_cast fpAt_antitone data t₁ t₂ h) (by positivity)

/-- Witness for C7 at a two-example evaluation set and thresholds 0 ≤ 1. -/
theorem c7_curve_monotonicity_witness :
    recallAt [(true, 3 / 4), (false, 1 / 4)] 1
      ≤ recallAt [(true, 3 / 4), (false, 1 / 4)] 0 ∧
    tprAt [(true, 3 / 4), (false, 1 / 4)] 1
      ≤ tprAt [(true, 3 / 4), (false, 1 / 4)] 0 ∧
    fprAt [(true, 3 / 4), (false, 1 / 4)] 1
      ≤ fprAt [(true, 3 / 4), (false, 1 / 4)] 0 :=
  c7_curve_monotonicity [(true, 3 / 4), (false, 1 / 4)] 0 1 (by norm_num)

/-- Lexicographic comparison of character lists, used to model the sorted
order of `np.unique` over strings. -/
def charListLe : List Char → List Char → Bool
  | [], _ => true
  | _ :: _, [] => false
  | a :: as, b :: bs =>
    if a < b then true else if b < a then false else charListLe as bs

/-- Lexicographic string comparison over the character sequences. -/
def strLe (a b : String) : Bool :=
  charListLe a.toList b.toList

/-- Embedding of `LabelEncoder.fit` (line 21 of src/baseline.py): the fitted state is
`classes_ = np.unique(y)`, the sorted list of distinct training labels. -/
def labelEncoderFit (y : List String) : List String :=
  (y.dedup).insertionSort (fun a b => strLe a b = true)

/-- Embedding of `LabelEncoder.transform`: map each label to its index in the fitted
class list; a label unseen at fit time is an error (`none`). -/
def labelEncoderTransform (classes : List String) (y : List String) :
    Option (List Nat) :=
  y.mapM (fun s => List.indexOf? s classes)

/-- The default analyzer of the text vectorizer lowercases the document and
extracts word tokens of at least two characters; modelled as lowercasing
the characters, splitting on spaces and keeping tokens of length ≥ 2
(`wordsAux` accumulates the current token in reverse). -/
def wordsAux : List Char → List Char → List String
  | [], acc => if acc.isEmpty then [] else [String.mk acc.reverse]
  | c :: cs, acc =>
    if c = ' ' then
      if acc.isEmpty then wordsAux cs []
      else String.mk acc.reverse :: wordsAux cs []
    else wordsAux cs (c :: acc)

/-- Tokenisation used by the vectorizer model. -/
def tokenize (doc : String) : List String :=
  (wordsAux (doc.toList.map Char.toLower) []).filter (fun t => 2 ≤ t.length)

/-- Occurrences of token `t` in a token list. -/
def countTok (toks : List String) (t : String) : Nat :=
  (toks.filter (fun s => s == t)).length

/-- The fitted state of `TfidfVectorizer` (line 26 of src/baseline.py): the
sorted distinct vocabulary of the fitted corpus, the per-term document
frequencies the idf weights are computed from, and the corpus size. -/
structure VecState where
  vocabulary : List String
  docFreq : List Nat
  nDocs : Nat
deriving DecidableEq, Repr

/-- Embedding of `TfidfVectorizer.fit`: learn vocabulary and document frequencies from
the given corpus only. -/
def tfidfFit (docs : List String) : VecState :=
  let toks := docs.map tokenize
  let vocab := (toks.flatten.dedup).insertionSort (fun a b => strLe a b = true)
  { vocabulary := vocab
    docFreq := vocab.map (fun t => (toks.filter (fun d => d.contains t)).length)
    nDocs := docs.length }

/-- Embedding of `TfidfVectorizer.transform`: per document, the raw term-count vector
over the fitted vocabulary.  The idf log-scaling and normalisation the
library applies on top are functions of the fitted state and these counts
alone (floating point, left unmodelled); the output is fully determined by
the fitted state and the transformed documents. -/
def tfidfTransform (st : VecState) (docs : List String) : List (List Nat) :=
  docs.map (fun d => st.vocabulary.map (fun t => countTok (tokenize d) t))

/-- The encoder/vectorizer outputs of src/baseline.py, lines 19–27. -/
structure BaselinePrep where
  leClasses : List String
  yTrainEnc : Option (List Nat)
  yTestEnc : Option (List Nat)
  vecState : VecState
  xTrainTfidf : List (List Nat)
  xTestTfidf : List (List Nat)
deriving Repr

/-- Embedding of lines 19–27 of src/baseline.py: fit the label encoder on
the training labels (`le.fit_transform(y_train)`), transform the test
labels through the fitted encoder (`le.transform(y_test)`), fit the TF-IDF
vectorizer on the training text (`vectorizer.fit_transform(X_train)`), and
transform the test text through the fitted vectorizer
(`vectorizer.transform(X_test)`). -/
def runBaselinePrep (xTrain yTrain xTest yTest : List String) :
    BaselinePrep :=
  let le := labelEncoderFit yTrain
  let vec := tfidfFit xTrain
  { leClasses := le
    yTrainEnc := labelEncoderTransform le yTrain
    yTestEnc := labelEncoderTransform le yTest
    vecState := vec
    xTrainTfidf := tfidfTransform vec xTrain
    xTestTfidf := tfidfTransform vec xTest }

/-- C8: the fitted label-encoder classes and the fitted vectorizer state are
functions of the training split alone — replacing the test split by any
other leaves them unchanged — and the test split is only ever transformed
through those already-fitted states. -/
theorem c8_fit_only_on_training_split
    (xTrain yTrain xTest yTest xTest2 yTest2 : List String) :
    (runBaselinePrep xTrain yTrain xTest yTest).leClasses
      = (runBaselinePrep xTrain yTrain xTest2 yTest2).leClasses ∧
    (runBaselinePrep xTrain yTrain xTest yTest).vecState
      = (runBaselinePrep xTrain yTrain xTest2 yTest2).vecState ∧
    (runBaselinePrep xTrain yTrain xTest yTest).leClasses
      = labelEncoderFit yTrain ∧
    (runBaselinePrep xTrain yTrain xTest yTest).vecState
      = tfidfFit xTrain ∧
    (runBaselinePrep xTrain yTrain xTest yTest).yTestEnc
      = labelEncoderTransform (labelEncoderFit yTrain) yTest ∧
    (runBaselinePrep xTrain yTrain xTest yTest).xTestTfidf
      = tfidfTransform (tfidfFit xTrain) xTest :=
  ⟨rfl, rfl, rfl, rfl, rfl, rfl⟩

/-- Model of `os.makedirs(d)` over a set of existing directories: raises
`FileExistsError` when `d` already exists (`exist_ok` is not passed at
line 50 of src/baseline.py). -/
def osMakedirs (dirs : List Path) (d : Path) : Except String (List Path) :=
  if d ∈ dirs then Except.error "FileExistsError" else Except.ok (d :: dirs)

/-- Embedding of lines 49–50 of src/baseline.py:
`if not os.path.exists(directory): os.makedirs(directory)`. -/
def ensureArtifactsDirectory (dirs : List Path) : Except String (List Path) :=
  if baselineDirectory ∈ dirs then Except.ok dirs
  else osMakedirs dirs baselineDirectory

/-- C9: the guarded directory-creation step never fails — in particular it
succeeds unchanged when the artifacts directory already exists — and after
one execution a second consecutive execution succeeds as well. -/
theorem c9_directory_creation_idempotent (dirs : List Path) :
    (baselineDirectory ∈ dirs →
      ensureArtifactsDirectory dirs = Except.ok dirs) ∧
    ∃ dirs2, ensureArtifactsDirectory dirs = Except.ok dirs2 ∧
      ensureArtifactsDirectory dirs2 = Except.ok dirs2 := by
  constructor
  · intro h
    simp [ensureArtifactsDirectory, h]
  · by_cases h : baselineDirectory ∈ dirs
    · exact ⟨dirs, by simp [ensureArtifactsDirectory, h],
        by simp [ensureArtifactsDirectory, h]⟩
    · refine ⟨baselineDirectory :: dirs, ?_, ?_⟩
      · simp [ensureArtifactsDirectory, osMakedirs, h]
      · simp [ensureArtifactsDirectory]

/-- Witness for C9: a filesystem already containing the artifacts
directory. -/
theorem c9_directory_creation_idempotent_witness :
    ensureArtifactsDirectory [baselineDirectory]
      = Except.ok [baselineDirectory] :=
  (c9_directory_creation_idempotent [baselineDirectory]).1
    (List.mem_singleton.mpr rfl)

/-- The display object of `plot_precision_recall_curve`: exactly the two
coordinate sequences it was constructed from. -/
structure PrecisionRecallDisplay where
  precision : List ℚ
  recallSeq : List ℚ
deriving DecidableEq, Repr

/-- The display object of `plot_roc_curve`: exactly the two coordinate
sequences it was constructed from. -/
structure RocCurveDisplay where
  fpr : List ℚ
  tpr : List ℚ
deriving DecidableEq, Repr

/-- Embedding of `plot_precision_recall_curve` (lines 115–128 of
src/text_clf/pr_roc_curve.py): construct the display from exactly the input
sequences — no recomputation, no model or data access, no further
effects. -/
def plotPrecisionRecallCurve (precision recallValues : List ℚ) :
    PrecisionRecallDisplay :=
  { precision := precision, recallSeq := recallValues }

/-- Embedding of `plot_roc_curve` (lines 131–142 of
src/text_clf/pr_roc_curve.py). -/
def plotRocCurve (fpr tpr : List ℚ) : RocCurveDisplay :=
  { fpr := fpr, tpr := tpr }

/-- C10: both plot helpers are pure constructors — the returned display
carries exactly the input coordinate sequences, unchanged. -/
theorem c10_plot_helpers_pure (p r f t : List ℚ) :
    (plotPrecisionRecallCurve p r).precision = p ∧
    (plotPrecisionRecallCurve p r).recallSeq = r ∧
    (plotRocCurve f t).fpr = f ∧
    (plotRocCurve f t).tpr = t :=
  ⟨rfl, rfl, rfl, rfl⟩
